import Mathlib

/-!
Shallow embedding of `discord-timestamp` (src/main.rs), a CLI that converts a
date/time string into a Discord `<t:unix:style>` timestamp.

The repository's own code (the `Cli` struct, `Cli::get_naive_datetime`,
`Style` with its `code`, `get_formatted` and `parse` functions, and `main`)
is translated directly.  The external `chrono` library calls
(`NaiveDateTime::parse_from_str`, `NaiveDate::parse_from_str`,
`NaiveTime::parse_from_str`, the epoch computation of `timestamp_millis`)
are modelled faithfully for the strftime specifiers that can occur here:
`%Y %m %d %H %M %S %%`, literal characters and whitespace; any other
specifier is modelled as a format error, as chrono's parser rejects
unsupported items.  `Local::now().date_naive()` (the machine clock) is
passed in as an explicit `today` parameter.
-/

namespace DiscordTimestamp

set_option maxRecDepth 100000

/-- The error kinds of chrono's `ParseError` that the modelled parser can
produce. -/
inductive ParseErrorKind where
  | outOfRange
  | impossible
  | notEnough
  | invalid
  | tooShort
  | tooLong
  | badFormat
deriving DecidableEq, Repr

abbrev ParseError := ParseErrorKind

/-- chrono `NaiveDate`: a calendar date with no timezone. -/
structure NaiveDate where
  year : Int
  month : Nat
  day : Nat
deriving DecidableEq, Repr

/-- chrono `NaiveTime`: a time of day; a leap second is stored as
`second = 59` with `nano = 1000000000`, as chrono does internally. -/
structure NaiveTime where
  hour : Nat
  minute : Nat
  second : Nat
  nano : Nat
deriving DecidableEq, Repr

/-- chrono `NaiveDateTime`: a date paired with a time of day. -/
structure NaiveDateTime where
  date : NaiveDate
  time : NaiveTime
deriving DecidableEq, Repr

/-- The numeric strftime fields used by the program's format strings. -/
inductive NumField where
  | year
  | month
  | day
  | hour
  | minute
  | second
deriving DecidableEq, Repr

/-- One item of a parsed strftime format string (chrono `Item`).  `bad`
stands for any specifier outside the modelled subset; matching it fails
with `badFormat` exactly as chrono fails on an `Item::Error`. -/
inductive Item where
  | lit (c : Char)
  | space
  | num (f : NumField)
  | bad
deriving DecidableEq, Repr

/-- chrono `StrftimeItems`: turn a format string into items.  A whitespace
character becomes a `space` item, `%` followed by a known specifier becomes
that item, a trailing `%` or an unknown specifier becomes `bad`, and any
other character is a literal. -/
def itemsOfFormat : List Char → List Item
  | [] => []
  | '%' :: c :: rest =>
    (match c with
      | 'Y' => Item.num .year
      | 'm' => Item.num .month
      | 'd' => Item.num .day
      | 'H' => Item.num .hour
      | 'M' => Item.num .minute
      | 'S' => Item.num .second
      | '%' => Item.lit '%'
      | _ => Item.bad) :: itemsOfFormat rest
  | ['%'] => [Item.bad]
  | c :: rest =>
    (if c.isWhitespace then Item.space else Item.lit c) :: itemsOfFormat rest

/-- chrono `Parsed`: the fields collected while scanning the input. -/
structure Parsed where
  year : Option Int := none
  month : Option Nat := none
  day : Option Nat := none
  hour : Option Nat := none
  minute : Option Nat := none
  second : Option Nat := none
deriving DecidableEq, Repr

/-- chrono `Parsed::set_if_consistent`: setting a field twice to different
values is an `impossible` error. -/
def setConsistent {α : Type} [DecidableEq α] (old : Option α) (new : α) :
    Except ParseError (Option α) :=
  match old with
  | none => .ok (some new)
  | some v => if v = new then .ok (some v) else .error .impossible

/-- chrono `scan::number`: read between `minW` and `maxW` leading ASCII
digits (`maxW = none` means unbounded); fewer characters than `minW` is
`tooShort`, a non-digit before `minW` digits is `invalid`, and a value
exceeding `i64::MAX` is `outOfRange`. -/
def scanNumber (s : List Char) (minW : Nat) (maxW : Option Nat) :
    Except ParseError (Nat × List Char) :=
  if s.length < minW then .error .tooShort
  else
    let digits := (match maxW with
      | some m => s.take m
      | none => s).takeWhile (fun c : Char => c.isDigit)
    if digits.length < minW then .error .invalid
    else
      let v := digits.foldl (fun (n : Nat) (c : Char) => n * 10 + (c.toNat - 48)) 0
      if v > 9223372036854775807 then .error .outOfRange
      else .ok (v, s.drop digits.length)

/-- Store one scanned numeric field into `Parsed`.  The year is converted
to `i32` on setting (chrono `Parsed::set_year`), the other fields are
validated later during resolution. -/
def Parsed.setField (p : Parsed) (f : NumField) (v : Int) :
    Except ParseError Parsed :=
  match f with
  | .year =>
    if v < -2147483648 ∨ v > 2147483647 then .error .outOfRange
    else do
      let y ← setConsistent p.year v
      .ok { p with year := y }
  | .month => do
    let m ← setConsistent p.month v.toNat
    .ok { p with month := m }
  | .day => do
    let d ← setConsistent p.day v.toNat
    .ok { p with day := d }
  | .hour => do
    let h ← setConsistent p.hour v.toNat
    .ok { p with hour := h }
  | .minute => do
    let m ← setConsistent p.minute v.toNat
    .ok { p with minute := m }
  | .second => do
    let s ← setConsistent p.second v.toNat
    .ok { p with second := s }

/-- Scan one numeric item from the input (chrono `parse_internal`, numeric
case): leading whitespace is skipped, the year accepts an optional sign
with unbounded digits, an unsigned year reads at most 4 digits, and every
other field reads at most 2 digits. -/
def scanNumField (f : NumField) (s : List Char) (p : Parsed) :
    Except ParseError (Parsed × List Char) := do
  let s := s.dropWhile (fun c => c.isWhitespace)
  match f, s with
  | .year, '-' :: rest => do
    let (v, rest') ← scanNumber rest 1 none
    let p ← p.setField .year (-(v : Int))
    .ok (p, rest')
  | .year, '+' :: rest => do
    let (v, rest') ← scanNumber rest 1 none
    let p ← p.setField .year (v : Int)
    .ok (p, rest')
  | .year, _ => do
    let (v, rest') ← scanNumber s 1 (some 4)
    let p ← p.setField .year (v : Int)
    .ok (p, rest')
  | f, _ => do
    let (v, rest') ← scanNumber s 1 (some 2)
    let p ← p.setField f (v : Int)
    .ok (p, rest')

/-- chrono `parse_internal`: match the format items against the input in
order; leftover input after the last item is `tooLong`. -/
def matchItems : List Item → List Char → Parsed → Except ParseError Parsed
  | [], s, p => if s.isEmpty then .ok p else .error .tooLong
  | .space :: items, s, p =>
    matchItems items (s.dropWhile (fun c => c.isWhitespace)) p
  | .lit c :: items, s, p =>
    match s with
    | [] => .error .tooShort
    | c' :: rest => if c' = c then matchItems items rest p else .error .invalid
  | .bad :: _, _, _ => .error .badFormat
  | .num f :: items, s, p =>
    match scanNumField f s p with
    | .error e => .error e
    | .ok (p', rest) => matchItems items rest p'

/-- True for leap years, per the Gregorian rule chrono uses. -/
def isLeapYear (y : Int) : Bool :=
  y % 4 = 0 ∧ (y % 100 ≠ 0 ∨ y % 400 = 0)

/-- Number of days of month `m` (1–12) in year `y`. -/
def daysInMonth (y : Int) (m : Nat) : Nat :=
  if m = 2 then (if isLeapYear y then 29 else 28)
  else if m = 4 ∨ m = 6 ∨ m = 9 ∨ m = 11 then 30
  else 31

/-- chrono `Parsed::to_naive_date`: needs year, month and day, and the
triple must be a valid date inside chrono's year range
(`-262144 ..= 262143`); otherwise `outOfRange`. -/
def Parsed.to_naive_date (p : Parsed) : Except ParseError NaiveDate :=
  match p.year, p.month, p.day with
  | some y, some m, some d =>
    if -262144 ≤ y ∧ y ≤ 262143 ∧ 1 ≤ m ∧ m ≤ 12 ∧ 1 ≤ d ∧ d ≤ daysInMonth y m
    then .ok ⟨y, m, d⟩
    else .error .outOfRange
  | _, _, _ => .error .notEnough

/-- chrono `Parsed::to_naive_time`: needs hour and minute, the second
defaults to 0; a second of 60 is a leap second, stored as 59 plus a full
second of nanoseconds; out-of-range components are `outOfRange`. -/
def Parsed.to_naive_time (p : Parsed) : Except ParseError NaiveTime :=
  match p.hour, p.minute with
  | some h, some m =>
    let s := p.second.getD 0
    if h ≤ 23 ∧ m ≤ 59 ∧ s ≤ 60 then
      if s = 60 then .ok ⟨h, m, 59, 1000000000⟩
      else .ok ⟨h, m, s, 0⟩
    else .error .outOfRange
  | _, _ => .error .notEnough

/-- chrono `Parsed::to_naive_datetime_with_offset` (offset 0): resolve the
date, then the time. -/
def Parsed.to_naive_datetime (p : Parsed) : Except ParseError NaiveDateTime := do
  let d ← p.to_naive_date
  let t ← p.to_naive_time
  .ok ⟨d, t⟩

/-- chrono `NaiveDateTime::parse_from_str`. -/
def NaiveDateTime.parse_from_str (s fmt : String) :
    Except ParseError NaiveDateTime := do
  let p ← matchItems (itemsOfFormat fmt.data) s.data {}
  p.to_naive_datetime

/-- chrono `NaiveDate::parse_from_str`. -/
def NaiveDate.parse_from_str (s fmt : String) : Except ParseError NaiveDate := do
  let p ← matchItems (itemsOfFormat fmt.data) s.data {}
  p.to_naive_date

/-- chrono `NaiveTime::parse_from_str`. -/
def NaiveTime.parse_from_str (s fmt : String) : Except ParseError NaiveTime := do
  let p ← matchItems (itemsOfFormat fmt.data) s.data {}
  p.to_naive_time

/-- Days between 1970-01-01 and this date (civil-from-days inverse, the
standard Gregorian computation realised by chrono's day arithmetic).
All divisions here are Rust-style truncating divisions on values arranged
to be non-negative. -/
def NaiveDate.daysFromCivil (d : NaiveDate) : Int :=
  let y : Int := if d.month ≤ 2 then d.year - 1 else d.year
  let era : Int := Int.tdiv (if 0 ≤ y then y else y - 399) 400
  let yoe : Int := y - era * 400
  let mp : Int := if 2 < d.month then (d.month : Int) - 3 else (d.month : Int) + 9
  let doy : Int := Int.tdiv (153 * mp + 2) 5 + (d.day : Int) - 1
  let doe : Int := yoe * 365 + Int.tdiv yoe 4 - Int.tdiv yoe 100 + doy
  era * 146097 + doe - 719468

/-- chrono `NaiveDateTime::timestamp` of the date-time read as UTC:
whole seconds since the epoch (a leap second counts as its stored
second 59; its extra time lives in the nanosecond field). -/
def NaiveDateTime.secondsFromEpoch (dt : NaiveDateTime) : Int :=
  dt.date.daysFromCivil * 86400 +
    (dt.time.hour : Int) * 3600 + (dt.time.minute : Int) * 60 +
    (dt.time.second : Int)

/-- chrono `DateTime::timestamp_millis` of the date-time interpreted at a
fixed offset of `off` seconds east: the UTC instant is the naive value
minus the offset. -/
def NaiveDateTime.timestampMillisAt (dt : NaiveDateTime) (off : Int) : Int :=
  (dt.secondsFromEpoch - off) * 1000 + ((dt.time.nano / 1000000 : Nat) : Int)

/-- `FixedOffset::east_opt(0).unwrap()` from `main` (src/main.rs line 211):
the program wraps a zero offset in the `Local` abstraction. -/
def mainFixedOffset : Int := 0

/-- The epoch value `main` computes (src/main.rs line 216):
`datetime.timestamp_millis() / 1000` with Rust's truncating `i64`
division, at the fixed zero offset. -/
def mainEpoch (dt : NaiveDateTime) : Int :=
  Int.tdiv (dt.timestampMillisAt mainFixedOffset) 1000

/-- The `Style` enum of src/main.rs. -/
inductive Style where
  | Default
  | ShortTime
  | LongTime
  | ShortDate
  | LongDate
  | ShortDateTime
  | LongDateTime
  | RelativeTime
deriving DecidableEq, Repr

/-- `Style::code`: character code associated with this style. -/
def Style.code : Style → String
  | .Default => ""
  | .ShortTime => "t"
  | .LongTime => "T"
  | .ShortDate => "d"
  | .LongDate => "D"
  | .ShortDateTime => "f"
  | .LongDateTime => "F"
  | .RelativeTime => "R"

/-- `Style::get_formatted`: render the markup for an epoch value.  Rust's
`format!` interpolation of an `i64` is string concatenation with the
decimal rendering of the integer. -/
def Style.get_formatted (s : Style) (unix : Int) : String :=
  match s with
  | .Default => "<t:" ++ toString unix ++ ">"
  | .ShortTime => "<t:" ++ toString unix ++ ":" ++ Style.ShortTime.code ++ ">"
  | .LongTime => "<t:" ++ toString unix ++ ":" ++ Style.LongTime.code ++ ">"
  | .ShortDate => "<t:" ++ toString unix ++ ":" ++ Style.ShortDate.code ++ ">"
  | .LongDate => "<t:" ++ toString unix ++ ":" ++ Style.LongDate.code ++ ">"
  | .ShortDateTime =>
    "<t:" ++ toString unix ++ ":" ++ Style.ShortDateTime.code ++ ">"
  | .LongDateTime =>
    "<t:" ++ toString unix ++ ":" ++ Style.LongDateTime.code ++ ">"
  | .RelativeTime =>
    "<t:" ++ toString unix ++ ":" ++ Style.RelativeTime.code ++ ">"

/-- The error string of `Style::parse`'s catch-all arm. -/
def styleParseError : String :=
  "Expected one of: default, short-time, t, long-time, T, short-date, d, long-date, D, short-date-time, f, long-date-time, F, relative-time, R"

/-- `Style::parse`: resolve a token by kebab-case name or one-character
code; the Rust `match` on `&str` is a sequence of equality tests. -/
def Style.parse (s : String) : Except String Style :=
  if s = "default" then .ok .Default
  else if s = "t" then .ok .ShortTime
  else if s = "short-time" then .ok .ShortTime
  else if s = "T" then .ok .LongTime
  else if s = "long-time" then .ok .LongTime
  else if s = "d" then .ok .ShortDate
  else if s = "short-date" then .ok .ShortDate
  else if s = "D" then .ok .LongDate
  else if s = "long-date" then .ok .LongDate
  else if s = "f" then .ok .ShortDateTime
  else if s = "short-date-time" then .ok .ShortDateTime
  else if s = "F" then .ok .LongDateTime
  else if s = "long-date-time" then .ok .LongDateTime
  else if s = "R" then .ok .RelativeTime
  else if s = "relative-time" then .ok .RelativeTime
  else .error styleParseError

/-- Kebab-case long name of each style, as listed in the first column of
`STYLE_HELP` and accepted by `Style::parse`. -/
def Style.longName : Style → String
  | .Default => "default"
  | .ShortTime => "short-time"
  | .LongTime => "long-time"
  | .ShortDate => "short-date"
  | .LongDate => "long-date"
  | .ShortDateTime => "short-date-time"
  | .LongDateTime => "long-date-time"
  | .RelativeTime => "relative-time"

/-- The eight styles, in declaration order. -/
def allStyles : List Style :=
  [.Default, .ShortTime, .LongTime, .ShortDate, .LongDate,
   .ShortDateTime, .LongDateTime, .RelativeTime]

/-- The fifteen tokens `Style::parse` accepts: eight long names plus the
seven non-empty codes. -/
def validStyleTokens : List String :=
  ["default", "short-time", "t", "long-time", "T", "short-date", "d",
   "long-date", "D", "short-date-time", "f", "long-date-time", "F",
   "relative-time", "R"]

/-- The `Cli` argument struct of src/main.rs, after the CLI library has
resolved defaults and environment overrides. -/
structure Cli where
  input : String
  style : Style
  copy_to_clipboard : Bool
  datetime_format : String
  date_format : String
  time_format : String
  help_style : Bool
deriving DecidableEq, Repr

/-- `Cli::get_naive_datetime` (src/main.rs lines 104–121).  `today` stands
for `Local::now().date_naive()`, the machine's current local calendar
date, which the embedding takes as an explicit input. -/
def Cli.get_naive_datetime (cli : Cli) (today : NaiveDate) :
    Except ParseError NaiveDateTime :=
  let datetime := NaiveDateTime.parse_from_str cli.input cli.datetime_format
  match datetime with
  | .ok dt => .ok dt
  | .error _ =>
    match NaiveDate.parse_from_str cli.input cli.date_format with
    | .ok date => .ok ⟨date, ⟨0, 0, 0, 0⟩⟩
    | .error _ =>
      (NaiveTime.parse_from_str cli.input cli.time_format).map
        (fun time => ⟨today, time⟩)

/-- One observable output action of `main`.  `styleTable` is the
multi-line reference table `prettytable` renders from `STYLE_HELP`;
`formattingLine` is the single line printed by
`println!("Formatting: ...", datetime)`; `resultLine` and `copiedLine`
are the single lines printed for the result; `clipboardSet` is the
clipboard write, which produces no stdout. -/
inductive OutEvent where
  | styleTable
  | formattingLine (dt : NaiveDateTime)
  | resultLine (s : String)
  | clipboardSet (s : String)
  | copiedLine (s : String)
deriving DecidableEq, Repr

/-- True for the events that print exactly one line to stdout via
`println!`. -/
def OutEvent.isPrintln : OutEvent → Bool
  | .styleTable => false
  | .formattingLine _ => true
  | .resultLine _ => true
  | .clipboardSet _ => false
  | .copiedLine _ => true

/-- The body of `main` (src/main.rs lines 188–228) after argument
resolution: the emitted output events in order, and the parse error `main`
returns when all parse attempts fail.  The table is printed first when
`help_style` is set; execution then falls through to the parse. -/
def mainRun (args : Cli) (today : NaiveDate) :
    List OutEvent × Option ParseError :=
  let pre := if args.help_style then [OutEvent.styleTable] else []
  match args.get_naive_datetime today with
  | .error e => (pre, some e)
  | .ok dt =>
    let unix := mainEpoch dt
    let formatted := args.style.get_formatted unix
    let outs :=
      if args.copy_to_clipboard then
        [OutEvent.clipboardSet formatted, OutEvent.copiedLine formatted]
      else
        [OutEvent.resultLine formatted]
    (pre ++ [OutEvent.formattingLine dt] ++ outs, none)

/-- The default format templates of the CLI, with a given input string and
no flags set. -/
def defaultCli (input : String) : Cli :=
  { input := input
    style := .Default
    copy_to_clipboard := false
    datetime_format := "%Y-%m-%d %H:%M:%S"
    date_format := "%Y-%m-%d"
    time_format := "%H:%M:%S"
    help_style := false }

instance {ε α : Type} [DecidableEq ε] [DecidableEq α] :
    DecidableEq (Except ε α) := fun a b =>
  match a, b with
  | .ok x, .ok y =>
    if h : x = y then isTrue (by rw [h])
    else isFalse (fun hc => h (Except.ok.inj hc))
  | .error x, .error y =>
    if h : x = y then isTrue (by rw [h])
    else isFalse (fun hc => h (Except.error.inj hc))
  | .ok _, .error _ => isFalse (fun hc => Except.noConfusion hc)
  | .error _, .ok _ => isFalse (fun hc => Except.noConfusion hc)

/-- C2: for every epoch integer and every `Style`, `Style::get_formatted`
returns exactly `<t:{epoch}>` for the `Default` style and exactly
`<t:{epoch}:{code}>` with the style's one-character code otherwise.  It is
a Lean function of its two arguments, hence pure: identical inputs give
identical strings. -/
theorem get_formatted_shape (s : Style) (unix : Int) :
    s.get_formatted unix =
      if s = Style.Default then "<t:" ++ toString unix ++ ">"
      else "<t:" ++ toString unix ++ ":" ++ s.code ++ ">" := by
  cases s <;> simp [Style.get_formatted, Style.code]

/-- C10: the eight styles are pairwise distinct and complete, their codes
are pairwise distinct (so each variant has exactly one code, `Style.code`
being a total function), `Default`'s code is the empty string, and every
other style's code is a single character. -/
theorem style_code_invariants :
    (∀ s : Style, s ∈ allStyles) ∧
    allStyles.length = 8 ∧
    (allStyles.map Style.code).Nodup ∧
    Style.Default.code = "" ∧
    (∀ s : Style, s = .Default ∨ s.code.length = 1) := by
  refine ⟨fun s => ?_, by decide, by decide, rfl, fun s => ?_⟩
  · cases s <;> decide
  · cases s <;> decide

/-- C7: every style is resolved by its kebab-case long name; every style
other than `Default` is also resolved by its one-character code; and the
only token that resolves to `Default` is the name `"default"`. -/
theorem style_parse_longname_and_code (s : Style) :
    Style.parse s.longName = .ok s ∧
    (s ≠ .Default → Style.parse s.code = .ok s) ∧
    (∀ tok : String, Style.parse tok = .ok .Default → tok = "default") := by
  refine ⟨?_, ?_, ?_⟩
  · cases s <;> rfl
  · intro hs
    cases s
    · exact absurd rfl hs
    all_goals rfl
  · intro tok h
    by_cases h1 : tok = "default"
    · exact h1
    by_cases h2 : tok = "t"
    · subst h2; exact absurd h (by decide)
    by_cases h3 : tok = "short-time"
    · subst h3; exact absurd h (by decide)
    by_cases h4 : tok = "T"
    · subst h4; exact absurd h (by decide)
    by_cases h5 : tok = "long-time"
    · subst h5; exact absurd h (by decide)
    by_cases h6 : tok = "d"
    · subst h6; exact absurd h (by decide)
    by_cases h7 : tok = "short-date"
    · subst h7; exact absurd h (by decide)
    by_cases h8 : tok = "D"
    · subst h8; exact absurd h (by decide)
    by_cases h9 : tok = "long-date"
    · subst h9; exact absurd h (by decide)
    by_cases h10 : tok = "f"
    · subst h10; exact absurd h (by decide)
    by_cases h11 : tok = "short-date-time"
    · subst h11; exact absurd h (by decide)
    by_cases h12 : tok = "F"
    · subst h12; exact absurd h (by decide)
    by_cases h13 : tok = "long-date-time"
    · subst h13; exact absurd h (by decide)
    by_cases h14 : tok = "R"
    · subst h14; exact absurd h (by decide)
    by_cases h15 : tok = "relative-time"
    · subst h15; exact absurd h (by decide)
    exfalso
    unfold Style.parse at h
    rw [if_neg h1, if_neg h2, if_neg h3, if_neg h4, if_neg h5, if_neg h6,
      if_neg h7, if_neg h8, if_neg h9, if_neg h10, if_neg h11, if_neg h12,
      if_neg h13, if_neg h14, if_neg h15] at h
    exact Except.noConfusion h

/-- C7 witness: the long name and the code of `short-time` both resolve to
`ShortTime`, and the default token check holds at `"default"`. -/
theorem style_parse_longname_and_code_witness :
    Style.parse "short-time" = .ok .ShortTime ∧
    Style.parse "t" = .ok .ShortTime ∧
    "default" = "default" := by
  refine ⟨?_, ?_, ?_⟩
  · exact (style_parse_longname_and_code .ShortTime).1
  · exact (style_parse_longname_and_code .ShortTime).2.1 (by decide)
  · exact (style_parse_longname_and_code .Default).2.2 "default" (by decide)

/-- C8: `Style::parse` succeeds exactly on the fifteen valid tokens (the
eight long names plus the seven non-empty codes); every other token fails
with the fixed error message, which contains each valid token. -/
theorem style_parse_valid_tokens (tok : String) :
    (tok ∈ validStyleTokens → ∃ s, Style.parse tok = .ok s) ∧
    (tok ∉ validStyleTokens → Style.parse tok = .error styleParseError) ∧
    validStyleTokens.length = 15 ∧
    (∀ v ∈ validStyleTokens, v.data <:+: styleParseError.data) := by
  refine ⟨?_, ?_, by decide, by decide⟩
  · intro h
    simp only [validStyleTokens, List.mem_cons, List.not_mem_nil,
      or_false] at h
    rcases h with rfl | rfl | rfl | rfl | rfl | rfl | rfl | rfl | rfl | rfl |
      rfl | rfl | rfl | rfl | rfl
    all_goals exact ⟨_, rfl⟩
  · intro h
    simp only [validStyleTokens, List.mem_cons, List.not_mem_nil,
      or_false, not_or] at h
    obtain ⟨h1, h2, h3, h4, h5, h6, h7, h8, h9, h10, h11, h12, h13, h14,
      h15⟩ := h
    unfold Style.parse
    rw [if_neg h1, if_neg h3, if_neg h2, if_neg h5, if_neg h4, if_neg h7,
      if_neg h6, if_neg h9, if_neg h8, if_neg h11, if_neg h10, if_neg h13,
      if_neg h12, if_neg h15, if_neg h14]

/-- C8 witness: `"short-time"` is a valid token and resolves, `"bogus"` is
not and fails with the enumerating error message. -/
theorem style_parse_valid_tokens_witness :
    ("short-time" ∈ validStyleTokens ∧
      ∃ s, Style.parse "short-time" = .ok s) ∧
    ("bogus" ∉ validStyleTokens ∧
      Style.parse "bogus" = .error styleParseError) := by
  refine ⟨⟨by decide, ?_⟩, ⟨by decide, ?_⟩⟩
  · exact (style_parse_valid_tokens "short-time").1 (by decide)
  · exact (style_parse_valid_tokens "bogus").2.1 (by decide)

/-- C3: `Cli::get_naive_datetime` attempts the datetime format, then the
date-only format, then the time-only format, in that fixed order, and
returns the first success: whatever the three attempts individually
return, the result is the datetime attempt's value if it succeeded,
otherwise the date attempt's value at midnight if that succeeded,
otherwise the time attempt's outcome on today's date.  In particular an
input matching several formats is resolved by the earlier attempt. -/
theorem get_naive_datetime_priority (cli : Cli) (today : NaiveDate)
    (rDT : Except ParseError NaiveDateTime) (rD : Except ParseError NaiveDate)
    (rT : Except ParseError NaiveTime)
    (hDT : NaiveDateTime.parse_from_str cli.input cli.datetime_format = rDT)
    (hD : NaiveDate.parse_from_str cli.input cli.date_format = rD)
    (hT : NaiveTime.parse_from_str cli.input cli.time_format = rT) :
    cli.get_naive_datetime today =
      match rDT with
      | .ok dt => .ok dt
      | .error _ =>
        match rD with
        | .ok d => .ok ⟨d, ⟨0, 0, 0, 0⟩⟩
        | .error _ => rT.map (fun t => ⟨today, t⟩) := by
  cases rDT with
  | ok dt => simp [Cli.get_naive_datetime, hDT]
  | error e =>
    cases rD with
    | ok d => simp [Cli.get_naive_datetime, hDT, hD]
    | error e' => simp [Cli.get_naive_datetime, hDT, hD, hT]

/-- C3 witness: on the default formats, `"2018-11-28 09:01:00"` is
resolved by the first (datetime) attempt. -/
theorem get_naive_datetime_priority_witness :
    (defaultCli "2018-11-28 09:01:00").get_naive_datetime ⟨2026, 10, 12⟩
      = .ok ⟨⟨2018, 11, 28⟩, ⟨9, 1, 0, 0⟩⟩ :=
  get_naive_datetime_priority (defaultCli "2018-11-28 09:01:00")
    ⟨2026, 10, 12⟩ (.ok ⟨⟨2018, 11, 28⟩, ⟨9, 1, 0, 0⟩⟩) (.error .tooLong)
    (.error .invalid) (by rfl) (by rfl) (by rfl)

/-- C4: when the date-only attempt is the one that succeeds, the result
carries time-of-day 00:00:00; when the time-only attempt is the one that
succeeds, the result's date component is `today`, the embedding of
`Local::now().date_naive()` — today's date in the machine's local
timezone. -/
theorem date_only_midnight_time_only_today (cli : Cli) (today : NaiveDate) :
    (∀ e d, NaiveDateTime.parse_from_str cli.input cli.datetime_format
        = .error e →
      NaiveDate.parse_from_str cli.input cli.date_format = .ok d →
      cli.get_naive_datetime today = .ok ⟨d, ⟨0, 0, 0, 0⟩⟩) ∧
    (∀ e e' t, NaiveDateTime.parse_from_str cli.input cli.datetime_format
        = .error e →
      NaiveDate.parse_from_str cli.input cli.date_format = .error e' →
      NaiveTime.parse_from_str cli.input cli.time_format = .ok t →
      cli.get_naive_datetime today = .ok ⟨today, t⟩) := by
  constructor
  · intro e d hDT hD
    simp [Cli.get_naive_datetime, hDT, hD]
  · intro e e' t hDT hD hT
    simp [Cli.get_naive_datetime, hDT, hD, hT, Except.map]

/-- C4 witness: with the default formats, `"2018-11-28"` resolves to
midnight of that date, and `"09:01:00"` resolves to that time on the
supplied current date. -/
theorem date_only_midnight_time_only_today_witness :
    (defaultCli "2018-11-28").get_naive_datetime ⟨2026, 10, 12⟩
        = .ok ⟨⟨2018, 11, 28⟩, ⟨0, 0, 0, 0⟩⟩ ∧
    (defaultCli "09:01:00").get_naive_datetime ⟨2026, 10, 12⟩
        = .ok ⟨⟨2026, 10, 12⟩, ⟨9, 1, 0, 0⟩⟩ :=
  ⟨(date_only_midnight_time_only_today (defaultCli "2018-11-28")
      ⟨2026, 10, 12⟩).1 .tooShort ⟨2018, 11, 28⟩ (by rfl) (by rfl),
   (date_only_midnight_time_only_today (defaultCli "09:01:00")
      ⟨2026, 10, 12⟩).2 .invalid .invalid ⟨9, 1, 0, 0⟩ (by rfl) (by rfl)
      (by rfl)⟩

/-- C6: when all three parse attempts fail, `Cli::get_naive_datetime`
fails, and the error it returns is exactly the error of the last
(time-only) attempt. -/
theorem all_attempts_fail_last_error (cli : Cli) (today : NaiveDate)
    (e1 e2 e3 : ParseError)
    (h1 : NaiveDateTime.parse_from_str cli.input cli.datetime_format
      = .error e1)
    (h2 : NaiveDate.parse_from_str cli.input cli.date_format = .error e2)
    (h3 : NaiveTime.parse_from_str cli.input cli.time_format = .error e3) :
    cli.get_naive_datetime today = .error e3 := by
  simp [Cli.get_naive_datetime, h1, h2, h3, Except.map]

/-- C6 witness: `"bogus"` fails all three default formats and the overall
error is the time attempt's error. -/
theorem all_attempts_fail_last_error_witness :
    (defaultCli "bogus").get_naive_datetime ⟨2026, 10, 12⟩
      = .error .invalid :=
  all_attempts_fail_last_error (defaultCli "bogus") ⟨2026, 10, 12⟩
    .invalid .invalid .invalid (by rfl) (by rfl) (by rfl)

/-- C1 counterexample: `"2018-11-28 09:01:00"` under the default datetime
format parses to 2018-11-28 09:01:00, and the epoch value `main` computes
for it at the zero offset is 1543395660 — not the 1543392060 the
specification names. -/
theorem spec_example_epoch_differs :
    NaiveDateTime.parse_from_str "2018-11-28 09:01:00" "%Y-%m-%d %H:%M:%S"
        = .ok ⟨⟨2018, 11, 28⟩, ⟨9, 1, 0, 0⟩⟩ ∧
    mainEpoch ⟨⟨2018, 11, 28⟩, ⟨9, 1, 0, 0⟩⟩ = 1543395660 ∧
    mainEpoch ⟨⟨2018, 11, 28⟩, ⟨9, 1, 0, 0⟩⟩ ≠ 1543392060 := by
  refine ⟨by rfl, by rfl, by decide⟩

/-- C1 (amended): the epoch value is the millisecond-precision timestamp
of the naive date-time interpreted at the fixed zero offset, divided by
1000 with truncating division; for a parse result without a sub-second
component this is exactly its UTC seconds-since-epoch value, and the
default-format input `"2018-11-28 09:01:00"` yields epoch 1543395660. -/
theorem epoch_zero_offset :
    (∀ dt : NaiveDateTime,
      mainEpoch dt = Int.tdiv (dt.timestampMillisAt 0) 1000) ∧
    (∀ dt : NaiveDateTime, dt.time.nano = 0 →
      mainEpoch dt = dt.secondsFromEpoch) ∧
    (NaiveDateTime.parse_from_str "2018-11-28 09:01:00" "%Y-%m-%d %H:%M:%S"
        = .ok ⟨⟨2018, 11, 28⟩, ⟨9, 1, 0, 0⟩⟩ ∧
      mainEpoch ⟨⟨2018, 11, 28⟩, ⟨9, 1, 0, 0⟩⟩ = 1543395660) := by
  refine ⟨fun dt => rfl, fun dt h => ?_, by rfl, by rfl⟩
  simp only [mainEpoch, NaiveDateTime.timestampMillisAt, mainFixedOffset,
    h, Nat.zero_div, Nat.cast_zero, add_zero, sub_zero]
  exact Int.mul_tdiv_cancel _ (by norm_num)

/-- C1 witness: the zero-nanosecond clause applied at the parsed example
value. -/
theorem epoch_zero_offset_witness :
    mainEpoch ⟨⟨2018, 11, 28⟩, ⟨9, 1, 0, 0⟩⟩ =
      (⟨⟨2018, 11, 28⟩, ⟨9, 1, 0, 0⟩⟩ : NaiveDateTime).secondsFromEpoch :=
  epoch_zero_offset.2.1 ⟨⟨2018, 11, 28⟩, ⟨9, 1, 0, 0⟩⟩ rfl

/-- C5: with the help-style flag set (and the input defaulted to the empty
string by the argument resolver), `main` prints the reference table but
then still executes the timestamp-resolution path: all three parse
attempts run on the empty input and fail, so the invocation ends with a
parse error instead of skipping the parse. -/
theorem help_style_falls_through_to_parse :
    mainRun { defaultCli "" with help_style := true } ⟨2026, 10, 12⟩
      = ([.styleTable], some .tooShort) := by rfl

/-- C9 counterexample: a successful default run without the help-style
flag prints two stdout lines — the leftover `Formatting:` diagnostic line
and the result line — not exactly one. -/
theorem success_prints_two_not_one :
    (defaultCli "2018-11-28 09:01:00").help_style = false ∧
    (mainRun (defaultCli "2018-11-28 09:01:00") ⟨2026, 10, 12⟩).2 = none ∧
    ((mainRun (defaultCli "2018-11-28 09:01:00") ⟨2026, 10, 12⟩).1.filter
        OutEvent.isPrintln).length = 2 ∧
    ((mainRun (defaultCli "2018-11-28 09:01:00") ⟨2026, 10, 12⟩).1.filter
        OutEvent.isPrintln).length ≠ 1 := by
  refine ⟨by rfl, by rfl, by rfl, by decide⟩

/-- C9 (amended): on a successful run without the help-style flag the
program prints exactly two lines to standard output: the `Formatting:`
diagnostic line, then the formatted markup line — or the
clipboard-confirmation line when the copy flag is set. -/
theorem success_output_two_lines (args : Cli) (today : NaiveDate)
    (hh : args.help_style = false)
    (hs : (mainRun args today).2 = none) :
    ∃ dt : NaiveDateTime,
      (mainRun args today).1 =
        OutEvent.formattingLine dt ::
          (if args.copy_to_clipboard then
            [OutEvent.clipboardSet (args.style.get_formatted (mainEpoch dt)),
             OutEvent.copiedLine (args.style.get_formatted (mainEpoch dt))]
          else
            [OutEvent.resultLine
              (args.style.get_formatted (mainEpoch dt))]) ∧
      ((mainRun args today).1.filter OutEvent.isPrintln).length = 2 := by
  cases hdt : args.get_naive_datetime today with
  | error e =>
    exfalso
    simp [mainRun, hdt] at hs
  | ok dt =>
    refine ⟨dt, ?_, ?_⟩
    · simp [mainRun, hdt, hh]
    · cases hc : args.copy_to_clipboard <;>
        simp [mainRun, hdt, hh, hc, OutEvent.isPrintln, List.filter]

/-- C9 witness: the two-line shape at the default example invocation. -/
theorem success_output_two_lines_witness :
    ∃ dt : NaiveDateTime,
      (mainRun (defaultCli "2018-11-28 09:01:00") ⟨2026, 10, 12⟩).1 =
        OutEvent.formattingLine dt ::
          (if (defaultCli "2018-11-28 09:01:00").copy_to_clipboard then
            [OutEvent.clipboardSet
              ((defaultCli "2018-11-28 09:01:00").style.get_formatted
                (mainEpoch dt)),
             OutEvent.copiedLine
              ((defaultCli "2018-11-28 09:01:00").style.get_formatted
                (mainEpoch dt))]
          else
            [OutEvent.resultLine
              ((defaultCli "2018-11-28 09:01:00").style.get_formatted
                (mainEpoch dt))]) ∧
      ((mainRun (defaultCli "2018-11-28 09:01:00") ⟨2026, 10, 12⟩).1.filter
          OutEvent.isPrintln).length = 2 :=
  success_output_two_lines (defaultCli "2018-11-28 09:01:00")
    ⟨2026, 10, 12⟩ rfl (by rfl)

end DiscordTimestamp
